import Mathlib

/-!
Shallow embedding of `src/src/mastra/tools/calendarTools.ts` (repository
`Burlyhodl/email-ai`).

The file contains two near-identical credential-fetching functions
(`getCalendarAccessToken`, `getGmailAccessToken`) that differ only in the
connector name and the error message, plus seven operation wrappers built
with `createTool`.  The two token functions are embedded once as
`getAccessToken`, parameterised by the resource family; the per-family
constants are `connectorName` and `notConnectedMessage`.

Modelling conventions:
* JavaScript `undefined` is `Option.none`; optional chaining `a?.b` is
  `Option.bind`.
* JavaScript truthiness of strings (`""` is falsy) is `strTruthy`;
  truthiness of base64 data strings is `dataTruthy`.
* Base64 strings are modelled as lists of sextet values (`List Nat`,
  each `< 64`); `Buffer.from(data, "base64").toString("utf-8")` is
  `b64decode`, which returns the byte sequence of the decoded UTF-8 text.
  The url-safe character substitutions (`+`/`-`, `/`/`_`) and padding
  stripping do not change the sextet content, so `b64encode` also stands
  for the base64url form produced by `createDraftReplyTool`.
* The remote calls (`fetch`, googleapis client methods) are modelled by
  passing their responses in as parameters; a thrown provider failure is
  `Except.error` carrying the thrown value (as a `String`).
* Timestamps (`Date.now()`, `new Date(e).getTime()`) are `Nat`
  milliseconds.
-/

namespace EmailAI

/-- JavaScript truthiness of an optional string: `undefined` and `""` are
falsy, every other string is truthy. -/
def strTruthy : Option String → Bool
  | none => false
  | some s => s != ""

/-- JavaScript truthiness of an optional base64 data string (modelled as a
sextet list): `undefined` and the empty string are falsy. -/
def dataTruthy : Option (List Nat) → Bool
  | none => false
  | some d => !d.isEmpty

/-- JavaScript `a || b` for a possibly-undefined string `a` with a string
fallback `b`. -/
def jsOrStr (a : Option String) (b : String) : String :=
  match a with
  | some s => if s != "" then s else b
  | none => b

/-- Base64 encoding at the level of byte values to sextet values (the
character table and padding are irrelevant to the properties proved here,
so they are not modelled). -/
def b64encode : List Nat → List Nat
  | [] => []
  | [a] => [a / 4, a % 4 * 16]
  | [a, b] => [a / 4, a % 4 * 16 + b / 16, b % 16 * 4]
  | a :: b :: c :: rest =>
    a / 4 :: (a % 4 * 16 + b / 16) :: (b % 16 * 4 + c / 64) :: c % 64 :: b64encode rest

/-- Base64 decoding from sextet values back to byte values, the model of
`Buffer.from(data, "base64")`. -/
def b64decode : List Nat → List Nat
  | [] => []
  | [_] => []
  | [x, y] => [x * 4 + y / 16]
  | [x, y, z] => [x * 4 + y / 16, y % 16 * 16 + z / 4]
  | x :: y :: z :: w :: rest =>
    (x * 4 + y / 16) :: (y % 16 * 16 + z / 4) :: (z % 4 * 64 + w) :: b64decode rest

/-- The UTF-8 byte sequence of a string, the model of `Buffer.from(s)`. -/
def strBytes (s : String) : List Nat := s.toUTF8.toList.map (fun b => b.toNat)

/-! ### Token cache model (`getCalendarAccessToken` / `getGmailAccessToken`) -/

/-- The two resource families; the two source functions are textually
identical up to the constants below. -/
inductive Family
  | calendar
  | mail
deriving DecidableEq, Repr

/-- Connector name used in the fetch URL query string. -/
def connectorName : Family → String
  | .calendar => "google-calendar"
  | .mail => "google-mail"

/-- Message of the error thrown when no usable token is found. -/
def notConnectedMessage : Family → String
  | .calendar => "Google Calendar not connected"
  | .mail => "Gmail not connected"

/-- Model of `settings.oauth.credentials`. -/
structure OAuthCredentials where
  access_token : Option String
deriving DecidableEq, Repr

/-- Model of `settings.oauth`. -/
structure OAuthInfo where
  credentials : Option OAuthCredentials
deriving DecidableEq, Repr

/-- Model of the `settings` object of a connector item.  `expires_at` is a
millisecond timestamp (the source stores an ISO string and converts with
`new Date(...).getTime()`). -/
structure ConnSettings where
  access_token : Option String
  expires_at : Option Nat
  oauth : Option OAuthInfo
deriving DecidableEq, Repr

/-- A connector item from the response `items` array (the source only ever
reads its `settings` field). -/
structure ConnItem where
  settings : ConnSettings
deriving DecidableEq, Repr

/-- The three failure modes of the token functions.  `configError` is the
thrown `X_REPLIT_TOKEN not found for repl/depl`; `notConnected fam` is the
thrown `notConnectedMessage fam`; `typeError` is the JavaScript `TypeError`
raised by reading `.settings` of `undefined` on line 33 / line 243 when the
response item list is empty. -/
inductive TokenError
  | configError
  | notConnected (fam : Family)
  | typeError
deriving DecidableEq, Repr

/-- The two identity environment variables read by the token functions. -/
structure Env where
  replIdentity : Option String
  webReplRenewal : Option String
deriving DecidableEq, Repr

/-- The cache-hit test on line 8 / line 218:
`cached && cached.settings.expires_at && new Date(cached.settings.expires_at).getTime() > Date.now()`.
A cached record with no `expires_at` is a miss. -/
def cacheHit : Option ConnItem → Nat → Bool
  | none, _ => false
  | some item, now =>
    match item.settings.expires_at with
    | none => false
    | some e => decide (now < e)

/-- The `X_REPLIT_TOKEN` header value: `repl <REPL_IDENTITY>` when that
variable is truthy, else `depl <WEB_REPL_RENEWAL>` when that one is truthy,
else `null`. -/
def xReplitToken (env : Env) : Option String :=
  if strTruthy env.replIdentity then some ("repl " ++ env.replIdentity.getD "")
  else if strTruthy env.webReplRenewal then some ("depl " ++ env.webReplRenewal.getD "")
  else none

/-- The nested token path `item.settings?.oauth?.credentials?.access_token`. -/
def oauthToken (item : ConnItem) : Option String :=
  (item.settings.oauth.bind (fun o => o.credentials)).bind (fun c => c.access_token)

/-- Token extraction on line 33 / line 243 for a defined item:
`item?.settings?.access_token || item.settings?.oauth?.credentials?.access_token`. -/
def extractToken (item : ConnItem) : Option String :=
  if strTruthy item.settings.access_token then item.settings.access_token
  else oauthToken item

/-- The `settings.access_token` field returned on the cache-hit path. -/
def cachedTokenField : Option ConnItem → Option String
  | none => none
  | some item => item.settings.access_token

/-- One outbound fetch to the connector endpoint: the connector name in the
URL and the `X_REPLIT_TOKEN` header value. -/
structure FetchRequest where
  connector : String
  header : String
deriving DecidableEq, Repr

/-- Result of one call to a token function: the returned value or thrown
error, the module-level cache variable after the call, and the list of
outbound fetches performed during the call. -/
structure TokenResult where
  result : Except TokenError (Option String)
  cacheAfter : Option ConnItem
  fetches : List FetchRequest
deriving Repr

/-- Model of `getCalendarAccessToken` / `getGmailAccessToken`.  `cache` is
the module-level connection-settings variable before the call, `now` is
`Date.now()`, `respItems` is the `items` array of the (single possible)
fetch response.  Note that the fetched first item is assigned to the cache
variable before token extraction is checked, so a failed extraction still
overwrites the cache. -/
def getAccessToken (fam : Family) (cache : Option ConnItem) (now : Nat)
    (env : Env) (respItems : List ConnItem) : TokenResult :=
  if cacheHit cache now then
    { result := .ok (cachedTokenField cache), cacheAfter := cache, fetches := [] }
  else
    match xReplitToken env with
    | none => { result := .error .configError, cacheAfter := cache, fetches := [] }
    | some hdr =>
      let req : FetchRequest := { connector := connectorName fam, header := hdr }
      match respItems.head? with
      | none =>
        { result := .error .typeError, cacheAfter := none, fetches := [req] }
      | some item =>
        if strTruthy (extractToken item) then
          { result := .ok (extractToken item), cacheAfter := some item, fetches := [req] }
        else
          { result := .error (.notConnected fam), cacheAfter := some item, fetches := [req] }

/-! ### Gmail wrapper models -/

/-- A message header from `payload.headers`. -/
structure GmailHeader where
  name : String
  value : Option String
deriving DecidableEq, Repr

/-- The header lookup pattern
`headers.find(h => h.name === n)?.value || fallback`. -/
def findHeader (hs : List GmailHeader) (n : String) : Option String :=
  (hs.find? (fun h => h.name == n)).bind (fun h => h.value)

/-- Header value with JavaScript `||` fallback. -/
def headerOr (hs : List GmailHeader) (n fallback : String) : String :=
  jsOrStr (findHeader hs n) fallback

/-- An entry of `listResponse.data.messages` (the source asserts `id!` and
`threadId!`, so both are carried as strings). -/
structure MsgRef where
  id : String
  threadId : String
deriving DecidableEq, Repr

/-- The metadata-format per-message response used by `listEmailsTool`:
`payload?.headers`, `snippet`, `labelIds`. -/
structure MetaMessage where
  headers : Option (List GmailHeader)
  snippet : Option String
  labelIds : Option (List String)
deriving DecidableEq, Repr

/-- One summarized email record pushed by `listEmailsTool`. -/
structure EmailSummary where
  id : String
  threadId : String
  subject : String
  fromAddr : String
  date : String
  snippet : String
  labels : List String
deriving DecidableEq, Repr

/-- Building one summary record from a list entry and its metadata
response (`from` of the source is rendered as `fromAddr`, `from` being a
Lean keyword). -/
def mkEmailSummary (m : MsgRef) (md : MetaMessage) : EmailSummary :=
  let hs := md.headers.getD []
  { id := m.id
    threadId := m.threadId
    subject := headerOr hs "Subject" "(No Subject)"
    fromAddr := headerOr hs "From" "Unknown"
    date := headerOr hs "Date" ""
    snippet := md.snippet.getD ""
    labels := md.labelIds.getD [] }

/-- The per-message fetch loop of `listEmailsTool`: each `messages.get` is
wrapped in its own try/catch, and a failing fetch is logged with `warn` and
skipped — the loop continues with the remaining messages. -/
def fetchEmailLoop (getResult : String → Except String MetaMessage) :
    List MsgRef → List EmailSummary
  | [] => []
  | m :: rest =>
    match getResult m.id with
    | .ok md => mkEmailSummary m md :: fetchEmailLoop getResult rest
    | .error _ => fetchEmailLoop getResult rest

/-- The effective result cap `context.maxResults || 50` (the schema default
50 applies when the field is absent, and `|| 50` additionally maps 0). -/
def effectiveMax (mr : Option Nat) : Nat :=
  match mr with
  | none => 50
  | some n => if n != 0 then n else 50

/-- Successful output of `listEmailsTool`, together with the request
parameters sent to `messages.list`. -/
structure ListEmailsOk where
  requestMax : Nat
  requestQuery : String
  emails : List EmailSummary
  totalCount : Nat
deriving DecidableEq, Repr

/-- Model of `listEmailsTool.execute`.  `listResult` is the outcome of
`messages.list` (its `messages` field may be absent); `getResult` gives the
outcome of `messages.get` for each id.  A failure of the list call is
rethrown after logging; failures of individual gets are swallowed by the
inner catch. -/
def listEmails (maxResults : Option Nat) (query : Option String)
    (listResult : Except String (Option (List MsgRef)))
    (getResult : String → Except String MetaMessage) : Except String ListEmailsOk :=
  match listResult with
  | .error e => .error e
  | .ok msgsOpt =>
    let emails := fetchEmailLoop getResult (msgsOpt.getD [])
    .ok { requestMax := effectiveMax maxResults
          requestQuery := query.getD ""
          emails := emails
          totalCount := emails.length }

/-- A MIME part of a full-format message: `mimeType` and `body?.data`
(base64, as sextets). -/
structure MsgPart where
  mimeType : Option String
  data : Option (List Nat)
deriving DecidableEq, Repr

/-- The full-format payload: `headers`, top-level `body?.data`, `parts`. -/
structure MsgPayload where
  headers : Option (List GmailHeader)
  data : Option (List Nat)
  parts : Option (List MsgPart)
deriving DecidableEq, Repr

/-- The full-format message response used by `getEmailContentTool`. -/
structure FullMessage where
  threadId : String
  payload : Option MsgPayload
  labelIds : Option (List String)
deriving DecidableEq, Repr

/-- The part-scanning loop of `getEmailContentTool`: a `text/plain` part
with truthy data decodes and breaks; a `text/html` part with truthy data
decodes into the accumulator and the loop continues; anything else is
skipped. -/
def scanParts : List MsgPart → List Nat → List Nat
  | [], body => body
  | p :: rest, body =>
    if p.mimeType == some "text/plain" && dataTruthy p.data then
      b64decode (p.data.getD [])
    else if p.mimeType == some "text/html" && dataTruthy p.data then
      scanParts rest (b64decode (p.data.getD []))
    else
      scanParts rest body

/-- Body extraction of `getEmailContentTool`: a truthy top-level
`payload.body.data` wins outright; otherwise, if `payload.parts` is present
(any array is truthy), the parts are scanned; otherwise the body stays
`""` (the empty byte sequence). -/
def decodeBody (payload : Option MsgPayload) : List Nat :=
  match payload with
  | none => []
  | some pl =>
    if dataTruthy pl.data then b64decode (pl.data.getD [])
    else
      match pl.parts with
      | some parts => scanParts parts []
      | none => []

/-- Output of `getEmailContentTool` (`body` is the decoded UTF-8 text as a
byte sequence; `from` and `to` of the source are rendered as `fromAddr` and
`toAddr`, both being Lean keywords). -/
structure EmailContent where
  id : String
  threadId : String
  subject : String
  fromAddr : String
  toAddr : String
  date : String
  body : List Nat
  labels : List String
deriving DecidableEq, Repr

/-- Model of `getEmailContentTool.execute`.  `clientResult` is the outcome
of `messages.get` with `format: "full"`; a failure is rethrown after
logging. -/
def getEmailContent (emailId : String) (clientResult : Except String FullMessage) :
    Except String EmailContent :=
  match clientResult with
  | .error e => .error e
  | .ok msg =>
    let hs := (msg.payload.bind (fun p => p.headers)).getD []
    .ok { id := emailId
          threadId := msg.threadId
          subject := headerOr hs "Subject" "(No Subject)"
          fromAddr := headerOr hs "From" "Unknown"
          toAddr := headerOr hs "To" ""
          date := headerOr hs "Date" ""
          body := decodeBody msg.payload
          labels := msg.labelIds.getD [] }

/-- Projection of the body field of a successful `getEmailContent` call. -/
def contentBody : Except String EmailContent → Option (List Nat)
  | .ok c => some c.body
  | .error _ => none

/-- A label entry of the `labels.list` response. -/
structure GLabel where
  id : Option String
  name : Option String
deriving DecidableEq, Repr

/-- The request body of a `labels.create` call. -/
structure CreateLabelRequest where
  name : String
  labelListVisibility : String
  messageListVisibility : String
deriving DecidableEq, Repr

/-- Output of `createOrGetLabelTool`. -/
structure LabelOut where
  labelId : String
  labelName : String
  created : Bool
deriving DecidableEq, Repr

/-- Result of one `createOrGetLabelTool` call: the returned value or thrown
error, plus the list of `labels.create` calls issued. -/
structure LabelCallResult where
  result : Except String LabelOut
  createCalls : List CreateLabelRequest
deriving Repr

/-- Model of `createOrGetLabelTool.execute`.  `listResult` is the outcome
of `labels.list` (its `labels` field may be absent); `createResult` gives
the outcome of `labels.create` for the issued request (the response id may
be absent, the source asserts `id!`). -/
def createOrGetLabel (labelName : String)
    (listResult : Except String (Option (List GLabel)))
    (createResult : CreateLabelRequest → Except String (Option String)) : LabelCallResult :=
  match listResult with
  | .error e => { result := .error e, createCalls := [] }
  | .ok labelsOpt =>
    match (labelsOpt.getD []).find? (fun l => l.name == some labelName) with
    | some existing =>
      { result := .ok { labelId := existing.id.getD ""
                        labelName := labelName
                        created := false }
        createCalls := [] }
    | none =>
      let req : CreateLabelRequest :=
        { name := labelName
          labelListVisibility := "labelShow"
          messageListVisibility := "show" }
      match createResult req with
      | .error e => { result := .error e, createCalls := [req] }
      | .ok newId =>
        { result := .ok { labelId := newId.getD ""
                          labelName := labelName
                          created := true }
          createCalls := [req] }

/-- Output of `addLabelToEmailTool`. -/
structure AddLabelOut where
  success : Bool
  emailId : String
  labelId : String
deriving DecidableEq, Repr

/-- Model of `addLabelToEmailTool.execute`; `clientResult` is the outcome
of `messages.modify`. -/
def addLabelToEmail (emailId labelId : String)
    (clientResult : Except String Unit) : Except String AddLabelOut :=
  match clientResult with
  | .error e => .error e
  | .ok _ => .ok { success := true, emailId := emailId, labelId := labelId }

/-! ### Calendar wrapper models -/

/-- A `start`/`end` time object of a calendar event. -/
structure GTime where
  dateTime : Option String
  date : Option String
deriving DecidableEq, Repr

/-- A calendar event of the `events.list` response (`end` of the source is
rendered as `endTime`, `end` being a Lean keyword). -/
structure GEvent where
  id : Option String
  summary : Option String
  start : Option GTime
  endTime : Option GTime
  location : Option String
deriving DecidableEq, Repr

/-- The mapping `event.start?.dateTime || event.start?.date || ""`. -/
def timeStr (t : Option GTime) : String :=
  jsOrStr (t.bind (fun x => x.dateTime)) (jsOrStr (t.bind (fun x => x.date)) "")

/-- The mapping `event.location || undefined`. -/
def locOpt (l : Option String) : Option String :=
  match l with
  | some s => if s != "" then some s else none
  | none => none

/-- One summarized event record of `listUpcomingEventsTool`. -/
structure EventSummary where
  id : String
  summary : String
  start : String
  endTime : String
  location : Option String
deriving DecidableEq, Repr

/-- Building one summary record from an event of the response. -/
def mkEventSummary (e : GEvent) : EventSummary :=
  { id := e.id.getD ""
    summary := jsOrStr e.summary "(No Title)"
    start := timeStr e.start
    endTime := timeStr e.endTime
    location := locOpt e.location }

/-- Successful output of `listUpcomingEventsTool`, together with the
request parameters sent to `events.list`. -/
structure ListEventsOk where
  requestMax : Nat
  requestTimeMin : String
  events : List EventSummary
  totalCount : Nat
deriving DecidableEq, Repr

/-- Model of `listUpcomingEventsTool.execute`.  `nowIso` is
`new Date().toISOString()`; `clientResult` is the outcome of `events.list`
(its `items` field may be absent); a failure is rethrown after logging. -/
def listUpcomingEvents (maxResults : Option Nat) (timeMin : Option String)
    (nowIso : String) (clientResult : Except String (Option (List GEvent))) :
    Except String ListEventsOk :=
  match clientResult with
  | .error e => .error e
  | .ok itemsOpt =>
    let events := (itemsOpt.getD []).map mkEventSummary
    .ok { requestMax := effectiveMax maxResults
          requestTimeMin := jsOrStr timeMin nowIso
          events := events
          totalCount := events.length }

/-- A `start`/`end` object sent to `events.insert`. -/
structure EventTimeSpec where
  dateTime : Option String
  date : Option String
  timeZone : Option String
deriving DecidableEq, Repr

/-- The date part before the first `T`, the model of `s.split("T")[0]`. -/
def datePart (s : String) : String := (s.splitOn "T").headD ""

/-- The `start`/`end` object built by `createCalendarEventTool`: all-day
events carry only the date part, timed events carry the date-time and the
time zone with default `America/Phoenix`. -/
def eventTime (allDay : Bool) (dt : String) (tz : Option String) : EventTimeSpec :=
  if allDay then { dateTime := none, date := some (datePart dt), timeZone := none }
  else { dateTime := some dt, date := none, timeZone := some (jsOrStr tz "America/Phoenix") }

/-- The request body of an `events.insert` call (`end` of the source is
rendered as `endSpec`). -/
structure InsertEventRequest where
  summary : String
  description : Option String
  location : Option String
  start : EventTimeSpec
  endSpec : EventTimeSpec
deriving DecidableEq, Repr

/-- Output of `createCalendarEventTool`. -/
structure EventOut where
  eventId : String
  htmlLink : String
  summary : String
  success : Bool
deriving DecidableEq, Repr

/-- Model of `createCalendarEventTool.execute`; `clientResult` maps the
issued insert request to the response `(id, htmlLink)` or a thrown
failure. -/
def createCalendarEvent (summary : String) (description location : Option String)
    (startDateTime endDateTime : String) (timeZone : Option String) (allDay : Bool)
    (clientResult : InsertEventRequest → Except String (Option String × Option String)) :
    Except String EventOut :=
  let req : InsertEventRequest :=
    { summary := summary
      description := description
      location := location
      start := eventTime allDay startDateTime timeZone
      endSpec := eventTime allDay endDateTime timeZone }
  match clientResult req with
  | .error e => .error e
  | .ok p =>
    .ok { eventId := p.1.getD "", htmlLink := p.2.getD "", summary := summary, success := true }

/-! ### Draft reply model (`createDraftReplyTool`) -/

/-- The conditional header line `inReplyTo ? "In-Reply-To: " + inReplyTo : ""`. -/
def inReplyToLine (irt : Option String) : String :=
  match irt with
  | some m => if m != "" then "In-Reply-To: " ++ m else ""
  | none => ""

/-- The six entries of the raw-message array literal, before filtering. -/
def draftLines (toAddr subject : String) (irt : Option String) (body : String) : List String :=
  ["To: " ++ toAddr,
   "Subject: " ++ subject,
   "Content-Type: text/plain; charset=utf-8",
   inReplyToLine irt,
   "",
   body]

/-- The model of `Array.prototype.join("\r\n")`. -/
def joinCRLF : List String → String
  | [] => ""
  | [s] => s
  | s :: rest => s ++ "\r\n" ++ joinCRLF rest

/-- The raw message: entries filtered by `filter(Boolean)` (which drops
exactly the empty strings), then joined with CRLF. -/
def rawMessage (toAddr subject : String) (irt : Option String) (body : String) : String :=
  joinCRLF ((draftLines toAddr subject irt body).filter (fun s => s != ""))

/-- The encoded message: base64url of the UTF-8 bytes of the raw message
(the `+` to `-` and `/` to `_` substitutions and the stripping of trailing
`=` padding do not change the sextet content). -/
def encodedMessage (toAddr subject : String) (irt : Option String) (body : String) : List Nat :=
  b64encode (strBytes (rawMessage toAddr subject irt body))

/-- The request body of a `drafts.create` call. -/
structure DraftRequest where
  raw : List Nat
  threadId : String
deriving DecidableEq, Repr

/-- Output of `createDraftReplyTool`. -/
structure DraftOut where
  draftId : String
  threadId : String
  success : Bool
deriving DecidableEq, Repr

/-- Model of `createDraftReplyTool.execute`; `clientResult` maps the issued
draft request to the response draft id or a thrown failure. -/
def createDraftReply (threadId toAddr subject body : String) (irt : Option String)
    (clientResult : DraftRequest → Except String (Option String)) : Except String DraftOut :=
  let req : DraftRequest := { raw := encodedMessage toAddr subject irt body, threadId := threadId }
  match clientResult req with
  | .error e => .error e
  | .ok draftId => .ok { draftId := draftId.getD "", threadId := threadId, success := true }

/-- Projection of the record count and total of a successful
`listUpcomingEvents` call. -/
def eventsTotal : Except String ListEventsOk → Option (Nat × Nat)
  | .ok r => some (r.events.length, r.totalCount)
  | .error _ => none

/-- Projection of the record count and total of a successful `listEmails`
call. -/
def emailsTotal : Except String ListEmailsOk → Option (Nat × Nat)
  | .ok r => some (r.emails.length, r.totalCount)
  | .error _ => none

/-! ### Shared lemmas -/

/-- Base64 decoding inverts encoding on byte sequences. -/
theorem b64decode_encode (l : List Nat) (h : ∀ x ∈ l, x < 256) :
    b64decode (b64encode l) = l := by
  induction l using b64encode.induct with
  | case1 => rfl
  | case2 a =>
    have ha : a < 256 := h a (by simp)
    simp [b64encode, b64decode]
    omega
  | case3 a b =>
    have ha : a < 256 := h a (by simp)
    have hb : b < 256 := h b (by simp)
    simp [b64encode, b64decode]
    omega
  | case4 a b c rest ih =>
    have ha : a < 256 := h a (by simp)
    have hb : b < 256 := h b (by simp)
    have hc : c < 256 := h c (by simp)
    have ih2 := ih (fun x hx => h x (by simp [hx]))
    simp [b64encode, b64decode, ih2]
    omega

/-- Base64 encoding yields the empty string only for the empty input. -/
theorem b64encode_eq_nil_iff (l : List Nat) : b64encode l = [] ↔ l = [] := by
  cases l with
  | nil => simp [b64encode]
  | cons a t =>
    cases t with
    | nil => simp [b64encode]
    | cons b t2 =>
      cases t2 with
      | nil => simp [b64encode]
      | cons c t3 => simp [b64encode]

/-- The part-scanning loop stops at the first `text/plain` part that has
truthy body data and returns its decoded data, whatever the accumulator
holds when that part is reached. -/
theorem scanParts_first_plain (pre post : List MsgPart) (p : MsgPart) (d : List Nat)
    (hpre : ∀ q ∈ pre, ¬(q.mimeType = some "text/plain" ∧ dataTruthy q.data = true))
    (hp : p.mimeType = some "text/plain") (hd : p.data = some d) (hne : d ≠ []) :
    ∀ acc, scanParts (pre ++ p :: post) acc = b64decode d := by
  induction pre with
  | nil =>
    intro acc
    have hcond : (p.mimeType == some "text/plain" && dataTruthy p.data) = true := by
      simp [hp, hd, dataTruthy, List.isEmpty_iff, hne]
    simp only [List.nil_append, scanParts, hcond, if_pos]
    simp [hd]
  | cons q rest ih =>
    intro acc
    have hq := hpre q (by simp)
    simp only [List.cons_append, scanParts]
    split
    · rename_i h1
      exfalso
      apply hq
      simp only [Bool.and_eq_true] at h1
      exact ⟨by simpa using h1.1, h1.2⟩
    · split
      · exact ih (fun r hr => hpre r (by simp [hr])) _
      · exact ih (fun r hr => hpre r (by simp [hr])) _

/-- Joining a list extended by one element appends a CRLF and the
element, provided the list is nonempty. -/
theorem joinCRLF_append_singleton (l : List String) (x : String) (h : l ≠ []) :
    joinCRLF (l ++ [x]) = joinCRLF l ++ "\r\n" ++ x := by
  induction l with
  | nil => exact absurd rfl h
  | cons s rest ih =>
    cases rest with
    | nil => simp [joinCRLF]
    | cons t ts =>
      have h2 := ih (by simp)
      simp only [List.cons_append] at h2 ⊢
      show s ++ "\r\n" ++ joinCRLF (t :: (ts ++ [x])) =
        (s ++ "\r\n" ++ joinCRLF (t :: ts)) ++ "\r\n" ++ x
      rw [h2]
      simp [String.append_assoc]

/-- The generated `To:` header line is never the empty string. -/
theorem toLine_ne_empty (t : String) : "To: " ++ t ≠ "" := by
  intro h
  have h2 := congrArg String.length h
  rw [String.length_append] at h2
  simp at h2
  exact absurd h2.1 (by decide)

/-! ### Claim C1 -/

/-- Claim C1 (counterexample).  The claim states that a cached record whose
expiry, when present, is strictly in the future is served with zero network
fetches.  A cached record with a token and no expiry falsifies it: the
cached record exists, its expiry is absent (so the condition "its expiry,
when present, is strictly in the future" holds vacuously), yet the call
performs one fetch, because the cache-hit test requires `expires_at` to be
present. -/
theorem c1_cacheHit_counterexample :
    ((some { settings := { access_token := some "tok", expires_at := none, oauth := none } } :
        Option ConnItem) ≠ none)
  ∧ ({ settings := { access_token := some "tok", expires_at := none, oauth := none } } :
        ConnItem).settings.expires_at = none
  ∧ (getAccessToken Family.calendar
      (some { settings := { access_token := some "tok", expires_at := none, oauth := none } })
      0 { replIdentity := some "ident", webReplRenewal := none }
      [{ settings := { access_token := some "tok", expires_at := none, oauth := none } }]
      ).fetches.length = 1 :=
  ⟨by simp, rfl, rfl⟩

/-- Claim C1 (amended).  For every resource family, if a cached record
exists and it has an `expires_at` that is strictly in the future at the
time of the call, then the token function performs zero network fetches and
returns the record's `settings.access_token` field. -/
theorem c1_cacheHit_amended (fam : Family) (item : ConnItem) (now e : Nat)
    (env : Env) (resp : List ConnItem)
    (he : item.settings.expires_at = some e) (hlt : now < e) :
    getAccessToken fam (some item) now env resp =
      { result := .ok item.settings.access_token, cacheAfter := some item, fetches := [] } := by
  have hhit : cacheHit (some item) now = true := by simp [cacheHit, he, hlt]
  simp [getAccessToken, hhit, cachedTokenField]

/-- Claim C1 witness: a concrete cache hit. -/
theorem c1_cacheHit_witness :
    getAccessToken Family.mail
      (some { settings := { access_token := some "tok", expires_at := some 10, oauth := none } })
      5 { replIdentity := none, webReplRenewal := none } [] =
      { result := .ok (some "tok")
        cacheAfter :=
          some { settings := { access_token := some "tok", expires_at := some 10, oauth := none } }
        fetches := [] } :=
  c1_cacheHit_amended Family.mail _ 5 10 _ [] rfl (by decide)

/-! ### Claim C2 -/

/-- Claim C2 (counterexample).  The claim states that no invalid record is
ever cached and that the cache is replaced only on a successful fetch.  On
a cache-miss call whose fetch response item carries a future expiry but no
token, the call throws the not-connected error, yet the invalid item is
left in the cache, and a subsequent call cache-hits on it and returns the
undefined `settings.access_token`. -/
theorem c2_cacheValidity_counterexample :
    (getAccessToken Family.mail none 0
      { replIdentity := some "ident", webReplRenewal := none }
      [{ settings := { access_token := none, expires_at := some 1000, oauth := none } }]).result =
        .error (.notConnected Family.mail)
  ∧ (getAccessToken Family.mail none 0
      { replIdentity := some "ident", webReplRenewal := none }
      [{ settings := { access_token := none, expires_at := some 1000, oauth := none } }]).cacheAfter =
        some { settings := { access_token := none, expires_at := some 1000, oauth := none } }
  ∧ (getAccessToken Family.mail
      (some { settings := { access_token := none, expires_at := some 1000, oauth := none } })
      0 { replIdentity := some "ident", webReplRenewal := none } []).result = .ok none :=
  ⟨rfl, rfl, rfl⟩

/-- Claim C2 (amended).  On every completed fetch (cache miss with an
identity credential available) the cached record is overwritten — full
overwrite — with the first response item, whether or not token extraction
succeeds; a call that returns successfully after fetching has cached a
record from which its returned (truthy) token was extracted, but a fetch
that ends in the not-connected error also overwrites the cache, leaving the
invalid fetched record there. -/
theorem c2_cache_overwrite (fam : Family) (cache : Option ConnItem) (now : Nat)
    (env : Env) (resp : List ConnItem)
    (hmiss : cacheHit cache now = false) (hid : xReplitToken env ≠ none) :
    (getAccessToken fam cache now env resp).cacheAfter = resp.head?
  ∧ (∀ tok, (getAccessToken fam cache now env resp).result = .ok tok →
      ∃ item, resp.head? = some item ∧ extractToken item = tok ∧ strTruthy tok = true) := by
  cases hx : xReplitToken env with
  | none => exact absurd hx hid
  | some hdr =>
    cases hr : resp.head? with
    | none =>
      refine ⟨by simp [getAccessToken, hmiss, hx, hr], ?_⟩
      intro tok htok
      simp [getAccessToken, hmiss, hx, hr] at htok
    | some item =>
      by_cases ht : strTruthy (extractToken item) = true
      · refine ⟨by simp [getAccessToken, hmiss, hx, hr, ht], ?_⟩
        intro tok htok
        simp [getAccessToken, hmiss, hx, hr, ht] at htok
        exact ⟨item, rfl, htok, htok ▸ ht⟩
      · refine ⟨by simp [getAccessToken, hmiss, hx, hr, ht], ?_⟩
        intro tok htok
        simp [getAccessToken, hmiss, hx, hr, ht] at htok

/-- Claim C2 witness: a concrete successful fetch overwriting an empty
cache. -/
theorem c2_cache_overwrite_witness :
    (getAccessToken Family.mail none 0
      { replIdentity := some "ident", webReplRenewal := none }
      [{ settings := { access_token := some "tok", expires_at := none, oauth := none } }]).cacheAfter =
      some { settings := { access_token := some "tok", expires_at := none, oauth := none } }
  ∧ ∃ item, ([{ settings := { access_token := some "tok", expires_at := none, oauth := none } }] :
        List ConnItem).head? = some item ∧ extractToken item = some "tok" ∧
        strTruthy (some "tok") = true :=
  ⟨(c2_cache_overwrite Family.mail none 0
      { replIdentity := some "ident", webReplRenewal := none } _ rfl (by decide)).1,
   (c2_cache_overwrite Family.mail none 0
      { replIdentity := some "ident", webReplRenewal := none } _ rfl (by decide)).2
      (some "tok") rfl⟩

/-! ### Claim C3 -/

/-- Claim C3 (divergence at the failing input).  Token extraction on a
cache-miss call: an item with `settings.access_token = "A"` yields `"A"`;
an item with only the nested OAuth token `"B"` yields `"B"`; an item with
neither yields the not-connected error naming the family — but an empty
item list does not: it raises a `TypeError` (reading `.settings` of
`undefined`), because the second disjunct of the extraction expression
lacks optional chaining on its root, which also makes the
`!connectionSettings` guard below it unreachable. -/
theorem c3_tokenExtraction_cases (fam : Family) :
    (getAccessToken fam none 0 { replIdentity := some "ident", webReplRenewal := none }
      [{ settings := { access_token := some "A", expires_at := none, oauth := none } }]).result =
        .ok (some "A")
  ∧ (getAccessToken fam none 0 { replIdentity := some "ident", webReplRenewal := none }
      [{ settings :=
          { access_token := none
            expires_at := none
            oauth := some { credentials := some { access_token := some "B" } } } }]).result =
        .ok (some "B")
  ∧ (getAccessToken fam none 0 { replIdentity := some "ident", webReplRenewal := none }
      [{ settings := { access_token := none, expires_at := none, oauth := none } }]).result =
        .error (.notConnected fam)
  ∧ (getAccessToken fam none 0 { replIdentity := some "ident", webReplRenewal := none }
      []).result = .error .typeError
  ∧ TokenError.typeError ≠ .notConnected fam := by
  cases fam <;> exact ⟨rfl, rfl, rfl, rfl, by decide⟩

/-! ### Claim C6 -/

/-- Claim C6.  When neither identity environment variable is set, a
cache-miss call fails with the configuration error before issuing any
network fetch, for both resource families, leaving the cache unchanged. -/
theorem c6_missing_identity_configError (fam : Family) (cache : Option ConnItem) (now : Nat)
    (resp : List ConnItem) (hmiss : cacheHit cache now = false) :
    getAccessToken fam cache now { replIdentity := none, webReplRenewal := none } resp =
      { result := .error .configError, cacheAfter := cache, fetches := [] } := by
  simp [getAccessToken, hmiss, xReplitToken, strTruthy]

/-- Claim C6 witness: a concrete cache-miss call with no identity. -/
theorem c6_missing_identity_witness :
    getAccessToken Family.calendar none 0
      { replIdentity := none, webReplRenewal := none }
      [{ settings := { access_token := some "tok", expires_at := none, oauth := none } }] =
      { result := .error .configError, cacheAfter := none, fetches := [] } :=
  c6_missing_identity_configError Family.calendar none 0 _ rfl

/-! ### Claim C9 -/

/-- Claim C9.  When both identity variables are set (with a nonempty
`REPL_IDENTITY`), the `X_REPLIT_TOKEN` header is built from `REPL_IDENTITY`
with the `repl ` prefix — every fetch issued by a token call carries that
header — and the `depl ` renewal form is produced only when `REPL_IDENTITY`
is absent. -/
theorem c9_repl_identity_priority (rid w wr : String) (hid : rid ≠ "") (hwr : wr ≠ "")
    (fam : Family) (cache : Option ConnItem) (now : Nat) (resp : List ConnItem) :
    xReplitToken { replIdentity := some rid, webReplRenewal := some w } =
      some ("repl " ++ rid)
  ∧ (∀ req ∈ (getAccessToken fam cache now
        { replIdentity := some rid, webReplRenewal := some w } resp).fetches,
      req.header = "repl " ++ rid)
  ∧ xReplitToken { replIdentity := none, webReplRenewal := some wr } =
      some ("depl " ++ wr) := by
  have hx : xReplitToken { replIdentity := some rid, webReplRenewal := some w } =
      some ("repl " ++ rid) := by
    simp [xReplitToken, strTruthy, hid]
  refine ⟨hx, ?_, by simp [xReplitToken, strTruthy, hwr]⟩
  intro req hreq
  by_cases hh : cacheHit cache now
  · simp [getAccessToken, hh] at hreq
  · cases hr : resp.head? with
    | none =>
      simp [getAccessToken, hh, hx, hr] at hreq
      rw [hreq]
    | some item =>
      by_cases ht : strTruthy (extractToken item) = true
      · simp [getAccessToken, hh, hx, hr, ht] at hreq
        rw [hreq]
      · simp [getAccessToken, hh, hx, hr, ht] at hreq
        rw [hreq]

/-- Claim C9 witness: both variables set on a concrete fetching call. -/
theorem c9_repl_identity_witness :
    xReplitToken { replIdentity := some "ident", webReplRenewal := some "renew" } =
      some ("repl " ++ "ident")
  ∧ (∀ req ∈ (getAccessToken Family.mail none 0
        { replIdentity := some "ident", webReplRenewal := some "renew" }
        [{ settings := { access_token := some "tok", expires_at := none, oauth := none } }]).fetches,
      req.header = "repl " ++ "ident")
  ∧ xReplitToken { replIdentity := none, webReplRenewal := some "renew" } =
      some ("depl " ++ "renew") :=
  c9_repl_identity_priority "ident" "renew" "renew" (by decide) (by decide)
    Family.mail none 0 _

/-! ### Claim C4 -/

/-- Claim C4 (counterexample).  In `listEmailsTool`, a failure of an
individual `messages.get` client call is not propagated: with two listed
messages and the first metadata fetch failing, the call succeeds and
reports the single remaining message as the full result. -/
theorem c4_swallow_counterexample :
    listEmails (some 2) none
      (.ok (some [{ id := "m1", threadId := "t1" }, { id := "m2", threadId := "t2" }]))
      (fun i => if i == "m1" then .error "boom"
        else .ok { headers := none, snippet := none, labelIds := none }) =
      .ok { requestMax := 2
            requestQuery := ""
            emails := [{ id := "m2", threadId := "t2", subject := "(No Subject)",
                         fromAddr := "Unknown", date := "", snippet := "", labels := [] }]
            totalCount := 1 } := rfl

/-- Claim C4 (amended).  Every operation wrapper propagates a failure of
its primary client call to the caller unchanged after logging it — except
that in `listEmailsTool` a failure of an individual per-message metadata
fetch is logged and the message skipped, the remaining messages being
returned as a successful (partial) result. -/
theorem c4_error_propagation (e : String)
    (mr : Option Nat) (q tm irt desc loc tz : Option String)
    (nowIso eid nm emid lbid tid toA subj bod sdt edt : String) (ad : Bool)
    (g : String → Except String MetaMessage)
    (cr : CreateLabelRequest → Except String (Option String)) :
    listUpcomingEvents mr tm nowIso (.error e) = .error e
  ∧ listEmails mr q (.error e) g = .error e
  ∧ getEmailContent eid (.error e) = .error e
  ∧ (createOrGetLabel nm (.error e) cr).result = .error e
  ∧ addLabelToEmail emid lbid (.error e) = .error e
  ∧ createDraftReply tid toA subj bod irt (fun _ => .error e) = .error e
  ∧ createCalendarEvent subj desc loc sdt edt tz ad (fun _ => .error e) = .error e
  ∧ (∀ m msgs, g m.id = .error e →
      fetchEmailLoop g (m :: msgs) = fetchEmailLoop g msgs) := by
  refine ⟨rfl, rfl, rfl, rfl, rfl, rfl, rfl, ?_⟩
  intro m msgs hm
  simp [fetchEmailLoop, hm]

/-- Claim C4 witness: concrete error propagation and a concrete skipped
message. -/
theorem c4_error_propagation_witness :
    listUpcomingEvents (some 2) none "2026-01-01T00:00:00Z" (.error "boom") = .error "boom"
  ∧ fetchEmailLoop (fun _ => .error "boom") [{ id := "m1", threadId := "t1" }] =
      fetchEmailLoop (fun _ => .error "boom") [] := by
  have h := c4_error_propagation "boom" (some 2) none none none none none none
    "2026-01-01T00:00:00Z" "e1" "nm" "em" "lb" "tid" "to@x" "subj" "body" "sd" "ed" false
    (fun _ => .error "boom") (fun _ => .error "boom")
  exact ⟨h.1, h.2.2.2.2.2.2.2 { id := "m1", threadId := "t1" } [] rfl⟩

/-! ### Claim C5 -/

/-- The body of a successfully fetched message is the decoded payload
body. -/
theorem contentBody_ok (eid : String) (msg : FullMessage) :
    contentBody (getEmailContent eid (.ok msg)) = some (decodeBody msg.payload) := rfl

/-- Claim C5.  In `getEmailContentTool`: a payload carrying only a
base64-encoded top-level body decodes exactly to the byte sequence of the
UTF-8 string it encodes; and for a multipart payload that contains a
`text/html` part with body data and a `text/plain` part with body data,
the returned body is the decoded data of the first `text/plain` part,
wherever the parts sit in the list. -/
theorem c5_body_decoding
    (eid tid : String) (lab : Option (List String)) (hdrs : Option (List GmailHeader))
    (s : List Nat) (hs : ∀ x ∈ s, x < 256)
    (pre post : List MsgPart) (p : MsgPart) (d : List Nat)
    (hpre : ∀ r ∈ pre, ¬(r.mimeType = some "text/plain" ∧ dataTruthy r.data = true))
    (hp : p.mimeType = some "text/plain") (hd : p.data = some d) (hne : d ≠ [])
    (hhtml : ∃ q ∈ pre ++ p :: post, q.mimeType = some "text/html" ∧ dataTruthy q.data = true) :
    contentBody (getEmailContent eid (.ok
      { threadId := tid
        payload := some { headers := hdrs, data := some (b64encode s), parts := none }
        labelIds := lab })) = some s
  ∧ contentBody (getEmailContent eid (.ok
      { threadId := tid
        payload := some { headers := hdrs, data := none, parts := some (pre ++ p :: post) }
        labelIds := lab })) = some (b64decode d) := by
  constructor
  · rw [contentBody_ok]
    by_cases hsn : s = []
    · subst hsn
      simp [decodeBody, dataTruthy, b64encode]
    · have henc : b64encode s ≠ [] := by
        intro hcon
        exact hsn ((b64encode_eq_nil_iff s).mp hcon)
      simp [decodeBody, dataTruthy, List.isEmpty_iff, henc, b64decode_encode s hs]
  · rw [contentBody_ok]
    simp [decodeBody, dataTruthy]
    exact scanParts_first_plain pre post p d hpre hp hd hne []

/-- Claim C5 witness: `"Hi"` as bytes `[72, 105]` through a top-level
body, and an HTML part preceding the first plain part. -/
theorem c5_body_decoding_witness :
    contentBody (getEmailContent "e1" (.ok
      { threadId := "t1"
        payload := some { headers := none, data := some (b64encode [72, 105]), parts := none }
        labelIds := none })) = some [72, 105]
  ∧ contentBody (getEmailContent "e1" (.ok
      { threadId := "t1"
        payload := some
          { headers := none
            data := none
            parts := some ([{ mimeType := some "text/html", data := some [1, 2, 3, 4] }] ++
              { mimeType := some "text/plain", data := some [16, 32] } ::
                [{ mimeType := some "text/plain", data := some [5, 6] }]) }
        labelIds := none })) = some (b64decode [16, 32]) :=
  c5_body_decoding "e1" "t1" none none [72, 105] (by decide)
    [{ mimeType := some "text/html", data := some [1, 2, 3, 4] }]
    [{ mimeType := some "text/plain", data := some [5, 6] }]
    { mimeType := some "text/plain", data := some [16, 32] } [16, 32]
    (by decide) rfl rfl (by decide)
    ⟨{ mimeType := some "text/html", data := some [1, 2, 3, 4] }, by decide⟩

/-! ### Claim C7 -/

/-- Claim C7.  `createOrGetLabelTool`: when the listed labels contain an
entry whose name equals the requested name (string equality, hence
case-sensitive), the first such entry's id is returned with
`created = false` and no create call is issued; when none matches, exactly
one create call is issued, carrying `labelListVisibility = "labelShow"`
and `messageListVisibility = "show"`, and the new id is returned with
`created = true`. -/
theorem c7_createOrGetLabel (nm newId i : String) (labels : List GLabel) (ent : GLabel)
    (cr : CreateLabelRequest → Except String (Option String)) :
    (labels.find? (fun l => l.name == some nm) = some ent → ent.id = some i →
      createOrGetLabel nm (.ok (some labels)) cr =
        { result := .ok { labelId := i, labelName := nm, created := false }
          createCalls := [] })
  ∧ (labels.find? (fun l => l.name == some nm) = none →
      cr { name := nm, labelListVisibility := "labelShow", messageListVisibility := "show" } =
        .ok (some newId) →
      createOrGetLabel nm (.ok (some labels)) cr =
        { result := .ok { labelId := newId, labelName := nm, created := true }
          createCalls :=
            [{ name := nm, labelListVisibility := "labelShow", messageListVisibility := "show" }] }) := by
  constructor
  · intro hfind hident
    simp [createOrGetLabel, hfind, hident]
  · intro hfind hcr
    simp [createOrGetLabel, hfind, hcr]

/-- Claim C7 witness: the same one-label list serves a case-sensitive hit
for `"Foo"` (no create) and a miss for `"foo"` (one create call with the
fixed visibility flags). -/
theorem c7_createOrGetLabel_witness :
    createOrGetLabel "Foo" (.ok (some [{ id := some "L1", name := some "Foo" }]))
      (fun _ => .ok (some "N1")) =
      { result := .ok { labelId := "L1", labelName := "Foo", created := false }
        createCalls := [] }
  ∧ createOrGetLabel "foo" (.ok (some [{ id := some "L1", name := some "Foo" }]))
      (fun _ => .ok (some "N1")) =
      { result := .ok { labelId := "N1", labelName := "foo", created := true }
        createCalls :=
          [{ name := "foo", labelListVisibility := "labelShow", messageListVisibility := "show" }] } :=
  ⟨(c7_createOrGetLabel "Foo" "N1" "L1" [{ id := some "L1", name := some "Foo" }]
      { id := some "L1", name := some "Foo" } (fun _ => .ok (some "N1"))).1 (by decide) rfl,
   (c7_createOrGetLabel "foo" "N1" "" [{ id := some "L1", name := some "Foo" }]
      { id := some "L1", name := some "Foo" } (fun _ => .ok (some "N1"))).2 (by decide) rfl⟩

/-! ### Claim C8 -/

/-- Claim C8.  A list call with `maxResults = 2` and two available items
returns exactly 2 summarized records and `totalCount = 2`; with no
available items it returns an empty sequence and `totalCount = 0`; and the
result cap sent to the provider defaults to 50 when not given — for both
`listUpcomingEventsTool` and `listEmailsTool`. -/
theorem c8_list_counts (mr : Option Nat) (tm q : Option String) (nowIso : String)
    (e1 e2 : GEvent) (m1 m2 : MsgRef) (g : String → Except String MetaMessage)
    (md1 md2 : MetaMessage) (h1 : g m1.id = .ok md1) (h2 : g m2.id = .ok md2) :
    eventsTotal (listUpcomingEvents (some 2) tm nowIso (.ok (some [e1, e2]))) = some (2, 2)
  ∧ listUpcomingEvents none tm nowIso (.ok (some [])) =
      .ok { requestMax := 50, requestTimeMin := jsOrStr tm nowIso
            events := [], totalCount := 0 }
  ∧ emailsTotal (listEmails (some 2) q (.ok (some [m1, m2])) g) = some (2, 2)
  ∧ listEmails none q (.ok (some [])) g =
      .ok { requestMax := 50, requestQuery := q.getD ""
            emails := [], totalCount := 0 }
  ∧ effectiveMax mr = (match mr with | none => 50 | some n => if n != 0 then n else 50) := by
  refine ⟨?_, ?_, ?_, ?_, rfl⟩
  · simp [listUpcomingEvents, eventsTotal]
  · simp [listUpcomingEvents, effectiveMax]
  · simp [listEmails, emailsTotal, fetchEmailLoop, h1, h2]
  · simp [listEmails, effectiveMax, fetchEmailLoop]

/-- Claim C8 witness: two concrete events and two concrete messages. -/
theorem c8_list_counts_witness :
    eventsTotal (listUpcomingEvents (some 2) none "2026-01-01T00:00:00Z"
      (.ok (some [{ id := some "a", summary := none, start := none, endTime := none, location := none },
                  { id := some "b", summary := none, start := none, endTime := none, location := none }]))) =
      some (2, 2)
  ∧ listUpcomingEvents none none "2026-01-01T00:00:00Z" (.ok (some [])) =
      .ok { requestMax := 50, requestTimeMin := jsOrStr none "2026-01-01T00:00:00Z"
            events := [], totalCount := 0 }
  ∧ emailsTotal (listEmails (some 2) none
      (.ok (some [{ id := "m1", threadId := "t1" }, { id := "m2", threadId := "t2" }]))
      (fun _ => .ok { headers := none, snippet := none, labelIds := none })) = some (2, 2)
  ∧ listEmails none none (.ok (some []))
      (fun _ => .ok { headers := none, snippet := none, labelIds := none }) =
      .ok { requestMax := 50, requestQuery := (none : Option String).getD ""
            emails := [], totalCount := 0 }
  ∧ effectiveMax (some 2) =
      (match some 2 with | none => 50 | some n => if n != 0 then n else 50) :=
  c8_list_counts (some 2) none none "2026-01-01T00:00:00Z"
    { id := some "a", summary := none, start := none, endTime := none, location := none }
    { id := some "b", summary := none, start := none, endTime := none, location := none }
    { id := "m1", threadId := "t1" } { id := "m2", threadId := "t2" }
    (fun _ => .ok { headers := none, snippet := none, labelIds := none })
    { headers := none, snippet := none, labelIds := none }
    { headers := none, snippet := none, labelIds := none } rfl rfl

/-! ### Claim C10 -/

/-- Claim C10.  In `createDraftReplyTool` the raw message is the CRLF-join
of exactly the non-empty entries of the six-entry array (To, Subject,
Content-Type, optional In-Reply-To, empty separator, body): the empty
separator is always removed by the filter, so for a non-empty body the raw
message is the joined header block, one single CRLF, then the body — no
blank line in between — and the encoded message is the base64url encoding
of that raw message's UTF-8 bytes. -/
theorem c10_draft_raw_message (toA subj bod : String) (irt : Option String) (hb : bod ≠ "") :
    "" ∉ (draftLines toA subj irt bod).filter (fun s => s != "")
  ∧ rawMessage toA subj irt bod =
      joinCRLF (["To: " ++ toA, "Subject: " ++ subj,
        "Content-Type: text/plain; charset=utf-8", inReplyToLine irt].filter
          (fun s => s != "")) ++ "\r\n" ++ bod
  ∧ encodedMessage toA subj irt bod = b64encode (strBytes (rawMessage toA subj irt bod)) := by
  refine ⟨?_, ?_, rfl⟩
  · intro hmem
    simp [List.mem_filter] at hmem
  · have hsplit : draftLines toA subj irt bod =
        ["To: " ++ toA, "Subject: " ++ subj,
         "Content-Type: text/plain; charset=utf-8", inReplyToLine irt] ++ ["", bod] := rfl
    rw [rawMessage, hsplit, List.filter_append]
    have hbb : (bod != "") = true := by simp [bne_iff_ne, hb]
    have htail : List.filter (fun s => s != "") ["", bod] = [bod] := by
      simp [List.filter, hbb]
    rw [htail]
    apply joinCRLF_append_singleton
    intro hnil
    have hmem : ("To: " ++ toA) ∈ List.filter (fun s => s != "")
        ["To: " ++ toA, "Subject: " ++ subj,
         "Content-Type: text/plain; charset=utf-8", inReplyToLine irt] := by
      simp [List.mem_filter, toLine_ne_empty toA]
    rw [hnil] at hmem
    exact absurd hmem (List.not_mem_nil _)

/-- Claim C10 witness: a concrete draft with an In-Reply-To header and a
non-empty body. -/
theorem c10_draft_raw_message_witness :
    "" ∉ (draftLines "a@b.c" "Re: hello" (some "<mid@x>") "See you there").filter
        (fun s => s != "")
  ∧ rawMessage "a@b.c" "Re: hello" (some "<mid@x>") "See you there" =
      joinCRLF (["To: " ++ "a@b.c", "Subject: " ++ "Re: hello",
        "Content-Type: text/plain; charset=utf-8", inReplyToLine (some "<mid@x>")].filter
          (fun s => s != "")) ++ "\r\n" ++ "See you there"
  ∧ encodedMessage "a@b.c" "Re: hello" (some "<mid@x>") "See you there" =
      b64encode (strBytes (rawMessage "a@b.c" "Re: hello" (some "<mid@x>") "See you there")) :=
  c10_draft_raw_message "a@b.c" "Re: hello" "See you there" (some "<mid@x>") (by decide)

end EmailAI
